import Mathlib

/-!
Verification of the remote stateful execution service
(src/nodes/EverythingAI/shared/remoteExecutor.ts).

The service resolves a browser session from a process-wide registry,
runs a caller-supplied code fragment against it, applies a retention
policy, optionally auto-captures screenshots, and answers over RPC.
This file gives a shallow embedding of the server's `service.execute`
(third server segment, remoteExecutor.ts:604-1222), of the second
segment's explicit-instance lookup (remoteExecutor.ts:363-506), of the
named-context lookup `getContextByName` (remoteExecutor.ts:845-876),
and of the authentication handlers on both ends
(remoteExecutor.ts:60-158 and 1138-1189), together with theorems
settling the specification claims about them.
-/

namespace RemoteExec

/-- One open page of a browsing context.  `shotOk` models whether
`page.screenshot()` succeeds on this page; `shotData` is the base64
payload it returns when it does. -/
structure Page where
  url : String
  shotOk : Bool
  shotData : String
deriving Repr, DecidableEq

/-- A browsing context object: it owns its open pages
(`context.pages()`). -/
structure Ctx where
  pages : List Page
deriving Repr, DecidableEq

/-- The Playwright browser handle.  Context objects live in `heap`
(keyed by an identity, mirroring JS reference identity); `openIds`
lists, in order, the contexts `browser.contexts()` currently returns.
A closed browser reports no contexts. -/
structure Browser where
  connected : Bool
  heap : List (Nat × Ctx)
  openIds : List Nat
deriving Repr, DecidableEq

/-- `browser.contexts()[i]` lookup of the underlying context object. -/
def Browser.findCtx (b : Browser) (cid : Nat) : Option Ctx :=
  (b.heap.find? (fun p => p.1 == cid)).map (·.2)

/-- `context.close()` on every open context (the keepContext=false loop
at remoteExecutor.ts:1000-1007). -/
def Browser.closeAllCtxs (b : Browser) : Browser :=
  { b with openIds := [] }

/-- `browser.close()`: the handle disconnects and reports no contexts. -/
def Browser.closeBrowser (b : Browser) : Browser :=
  { b with connected := false, openIds := [] }

/-- `page.close()` on every page of every open context (the
keepPage=false loop at remoteExecutor.ts:1019-1030). -/
def Browser.closeOpenPages (b : Browser) : Browser :=
  { b with heap := b.heap.map (fun p =>
      if b.openIds.contains p.1 then (p.1, Ctx.mk []) else p) }

/-- A fresh `chromium.launch({ headless: true })` result. -/
def freshBrowser : Browser :=
  { connected := true, heap := [], openIds := [] }

/-- One registry entry of `browserInstances`
(remoteExecutor.ts:742-754).  `contexts` maps a named-context id to the
identity of its context object; `contextMetadata` carries the
per-context bookkeeping payload (only its keys matter to the embedded
code). -/
structure BrowserRecord where
  browser : Browser
  createdAt : Nat
  workflowId : String
  executionId : String
  lastExecutionId : String
  keepContext : Bool
  keepPage : Bool
  persistentContext : Bool
  primaryContext : Option Nat
  contexts : List (String × Nat)
  contextMetadata : List (String × Nat)
deriving Repr, DecidableEq

/-- The process-wide `browserInstances` map, in insertion order
(JS `Map` iteration order). -/
abbrev Registry := List (String × BrowserRecord)

/-- `browserInstances.get iid`. -/
def lookupInst (l : Registry) (iid : String) : Option BrowserRecord :=
  match l with
  | [] => none
  | p :: rest => if p.1 == iid then some p.2 else lookupInst rest iid

/-- In-place mutation of the record stored under `iid` (JS records are
mutated through the aliased reference; the functional model writes the
final record back under its key). -/
def updateInst (l : Registry) (iid : String) (r : BrowserRecord) : Registry :=
  l.map (fun p => if p.1 == iid then (iid, r) else p)

/-- `browserInstances.delete iid`. -/
def eraseInst (l : Registry) (iid : String) : Registry :=
  l.filter (fun p => !(p.1 == iid))

/-- `browserInstances.set iid r` (JS `Map.set`): overwrite in place when
the key exists, append otherwise. -/
def setInst (l : Registry) (iid : String) (r : BrowserRecord) : Registry :=
  if l.any (fun p => p.1 == iid) then updateInst l iid r else l ++ [(iid, r)]

/-- The `metadata` argument of `service.execute`.  `none` models an
absent (or falsy) field; the `=== true` coercions of the source make
the boolean fields plain `Bool`s. -/
structure ExecMeta where
  workflowId : Option String
  workflowName : Option String
  executionId : Option String
  nodeId : Option String
  nodeName : Option String
  keepContext : Bool
  keepPage : Bool
  autoScreenshot : Bool
  contextId : Option String
deriving Repr, DecidableEq

/-- The `executionContext` object built at remoteExecutor.ts:680-690. -/
structure ExecutionContext where
  workflowId : String
  workflowName : String
  executionId : String
  nodeId : String
  nodeName : String
  keepContext : Bool
  keepPage : Bool
  autoScreenshot : Bool
  contextId : Option String
deriving Repr, DecidableEq

/-- `randomUUID()`, modelled as a deterministic fresh-name supply. -/
def uuidGen (n : Nat) : String := "uuid-" ++ toString n

/-- Whole-process state: the registry, the fresh-name counter and the
current `Date.now()` reading. -/
structure ServerState where
  instances : Registry
  uuidCtr : Nat
  now : Nat
deriving Repr, DecidableEq

/-- Lines 677-690: `keepPage` defaults `keepContext` (requesting page
retention forces context retention) and the metadata fields get their
defaults; `randomUUID()` is consumed when no executionId is given. -/
def parseMeta (st : ServerState) (meta : ExecMeta) : ExecutionContext × Nat :=
  let keepPage := meta.keepPage
  let keepContext := meta.keepContext || keepPage
  let (eid, ctr) :=
    match meta.executionId with
    | some e => (e, st.uuidCtr)
    | none => (uuidGen st.uuidCtr, st.uuidCtr + 1)
  ({ workflowId := meta.workflowId.getD "unknown-workflow"
     workflowName := meta.workflowName.getD ""
     executionId := eid
     nodeId := meta.nodeId.getD ""
     nodeName := meta.nodeName.getD ""
     keepContext := keepContext
     keepPage := keepPage
     autoScreenshot := meta.autoScreenshot
     contextId := meta.contextId }, ctr)

/-- Step 1 scan (remoteExecutor.ts:700-709): first registry entry with
an exact `(workflowId, executionId)` match and a connected browser. -/
def scanExact (wf eid : String) : Registry → Option (String × BrowserRecord)
  | [] => none
  | (iid, r) :: rest =>
    if r.workflowId == wf && r.executionId == eid && r.browser.connected then
      some (iid, r)
    else scanExact wf eid rest

/-- Step 2 scan (remoteExecutor.ts:714-735): first entry flagged
`persistentContext` in the same workflow with a connected browser. -/
def scanPersistent (wf : String) : Registry → Option (String × BrowserRecord)
  | [] => none
  | (iid, r) :: rest =>
    if r.workflowId == wf && r.persistentContext && r.browser.connected then
      some (iid, r)
    else scanPersistent wf rest

/-- The record a fresh launch builds (remoteExecutor.ts:742-754). -/
def newRecord (now : Nat) (ec : ExecutionContext) : BrowserRecord :=
  { browser := freshBrowser
    createdAt := now
    workflowId := ec.workflowId
    executionId := ec.executionId
    lastExecutionId := ec.executionId
    keepContext := ec.keepContext
    keepPage := ec.keepPage
    persistentContext := ec.keepContext
    primaryContext := none
    contexts := []
    contextMetadata := [] }

/-- Result of instance resolution (the locals of
remoteExecutor.ts:692-771 at the end of step 3). -/
structure ResolveOut where
  insts : Registry
  ctr : Nat
  activeId : Option String
  record : BrowserRecord
  createdNew : Bool
  reusedPersistent : Bool
  shouldClose : Bool
deriving Repr, DecidableEq

/-- Steps 1-3 of session resolution (remoteExecutor.ts:698-766):
exact `(workflowId, executionId)` match first; else, when retention is
requested, the persistent session of the workflow (updating
`lastExecutionId` and re-flagging it persistent, lines 724 and 765);
else a fresh launch, registered under a fresh id only when
`keepContext` is set. -/
def resolveInstance (insts : Registry) (ctr now : Nat) (ec : ExecutionContext) :
    ResolveOut :=
  match scanExact ec.workflowId ec.executionId insts with
  | some (iid, r) =>
    { insts := insts, ctr := ctr, activeId := some iid, record := r
      createdNew := false, reusedPersistent := false, shouldClose := false }
  | none =>
    match (if ec.keepContext then scanPersistent ec.workflowId insts else none) with
    | some (iid, r) =>
      -- lines 724 and 765: update lastExecutionId, keep the persistent flag
      -- (the `contexts`/`contextMetadata` ensure-exists of lines 727-732 is a
      -- no-op here: records always carry both fields)
      let r2 := { r with lastExecutionId := ec.executionId, persistentContext := true }
      { insts := updateInst insts iid r2, ctr := ctr, activeId := some iid
        record := r2, createdNew := false, reusedPersistent := true
        shouldClose := false }
    | none =>
      let r0 := newRecord now ec
      if ec.keepContext then
        { insts := setInst insts (uuidGen ctr) r0, ctr := ctr + 1
          activeId := some (uuidGen ctr), record := r0, createdNew := true
          reusedPersistent := false, shouldClose := false }
      else
        { insts := insts, ctr := ctr, activeId := none, record := r0
          createdNew := true, reusedPersistent := false, shouldClose := true }

/-- Lines 805-816: revalidate `primaryContext` against the browser's
live contexts, clearing it when it was externally closed. -/
def revalidatePrimary (r : BrowserRecord) : BrowserRecord :=
  if r.persistentContext then
    match r.primaryContext with
    | some c => if r.browser.openIds.contains c then r else { r with primaryContext := none }
    | none => r
  else r

/-- A JSON-ish literal stored on an output item's `json` object. -/
inductive JLit where
  | str (s : String)
  | num (n : Nat)
  | strs (l : List String)
deriving Repr, DecidableEq

/-- One binary attachment (the screenshot descriptor built at
remoteExecutor.ts:960-965 and 973-978). -/
structure Shot where
  data : String
  mimeType : String
  fileExtension : String
  fileName : String
deriving Repr, DecidableEq

/-- One n8n output item `{ json, binary }`.  `none` models an absent
(or falsy) property, under which the hook skips the json update. -/
structure OutputItem where
  json : Option (List (String × JLit))
  binary : Option (List (String × Shot))
deriving Repr, DecidableEq

/-- The result object the service hands back: the two output-channel
keys the hook inspects (`A`, `output1`), the defensive-wrap field
`__rawResult` and the reserved field `__playwrightInstanceId`. -/
structure ResObj where
  A : Option (List OutputItem)
  output1 : Option (List OutputItem)
  rawResult : Option String
  playwrightInstanceId : Option String
deriving Repr, DecidableEq

/-- The `{}` object literal. -/
def emptyObj : ResObj :=
  { A := none, output1 := none, rawResult := none, playwrightInstanceId := none }

/-- A value returned by the caller's code fragment: either an object
(kept as the payload) or a non-object (later defensively wrapped,
remembered here by a tag). -/
inductive FragVal where
  | obj (o : ResObj)
  | nonObj (tag : String)
deriving Repr, DecidableEq

/-- Outcome of running the caller's fragment against the session's
browser: normal completion or a raised error, in both cases with the
browser in whatever state the fragment left it. -/
inductive FragOutcome where
  | ok (b : Browser) (v : FragVal)
  | err (b : Browser) (msg : String)

/-- A caller-supplied code fragment, abstracted by its effect on the
injected browser handle and its returned value or raised error. -/
def Fragment := Browser → FragOutcome

/-- JS property assignment on a string-keyed object: overwrite the key
in place when present, append it otherwise. -/
def setKey {α : Type} (l : List (String × α)) (k : String) (v : α) :
    List (String × α) :=
  if l.any (fun p => p.1 == k) then
    l.map (fun p => if p.1 == k then (k, v) else p)
  else l ++ [(k, v)]

/-- One captured screenshot (remoteExecutor.ts:918-923). -/
structure Screenshot where
  contextIndex : Nat
  pageIndex : Nat
  url : String
  dataB64 : String
deriving Repr, DecidableEq

/-- The inner page loop of the capture hook (remoteExecutor.ts:913-927):
a page whose `screenshot()` fails is logged and skipped. -/
def shotsOfPages (ci : Nat) (idx : Nat) : List Page → List Screenshot
  | [] => []
  | pg :: rest =>
    (if pg.shotOk then
      [{ contextIndex := ci, pageIndex := idx, url := pg.url, dataB64 := pg.shotData }]
     else []) ++ shotsOfPages ci (idx + 1) rest

/-- The outer context loop of the capture hook
(remoteExecutor.ts:911-928); `contexts.indexOf(context)` is the
position counter for distinct context objects. -/
def shotsOfCtxs (b : Browser) (ci : Nat) : List Nat → List Screenshot
  | [] => []
  | cid :: rest =>
    (match b.findCtx cid with
     | none => []
     | some c => shotsOfPages ci 0 c.pages) ++ shotsOfCtxs b (ci + 1) rest

/-- All screenshots the hook captures, over every open context. -/
def collectScreenshots (b : Browser) : List Screenshot :=
  shotsOfCtxs b 0 b.openIds

/-- `{ data, mimeType, fileExtension, fileName }` for the
single-screenshot case (remoteExecutor.ts:960-965). -/
def singleShotAttachment (s : Screenshot) : Shot :=
  { data := s.dataB64, mimeType := "image/png", fileExtension := "png"
    fileName := "screenshot.png" }

/-- The indexed-key attachment of the multi-screenshot case
(remoteExecutor.ts:973-978). -/
def indexedShotAttachment (i : Nat) (s : Screenshot) : Shot :=
  { data := s.dataB64, mimeType := "image/png", fileExtension := "png"
    fileName := "screenshot_" ++ toString i ++ ".png" }

/-- The `for` loop writing `binary.screenshot_i` for each screenshot
(remoteExecutor.ts:971-979). -/
def addIndexedShots (bin : List (String × Shot)) (i : Nat) :
    List Screenshot → List (String × Shot)
  | [] => bin
  | s :: rest =>
    addIndexedShots (setKey bin ("screenshot_" ++ toString i) (indexedShotAttachment i s))
      (i + 1) rest

/-- Merging the captured screenshots onto one output item
(remoteExecutor.ts:953-984): ensure `binary` exists, then either the
single fixed key or the indexed key scheme, updating `json` only when
the item carries a truthy `json` object. -/
def mergeShotsIntoItem (it : OutputItem) (shots : List Screenshot) : OutputItem :=
  let it1 := if it.binary.isNone then { it with binary := some [] } else it
  match shots with
  | [] => it1
  | [s] =>
    let it2 := { it1 with binary := some (setKey (it1.binary.getD []) "screenshot" (singleShotAttachment s)) }
    (match it2.json with
     | some j => { it2 with json := some (setKey j "screenshotUrl" (JLit.str s.url)) }
     | none => it2)
  | _ =>
    let it2 := { it1 with binary := some (addIndexedShots (it1.binary.getD []) 0 shots) }
    (match it2.json with
     | some j =>
       { it2 with json := some (setKey (setKey j "screenshotCount" (JLit.num shots.length))
           "screenshotUrls" (JLit.strs (shots.map (·.url)))) }
     | none => it2)

/-- `result[outputKey][0]` handling (remoteExecutor.ts:946-951): merge
onto the first item, creating `{ json: {}, binary: {} }` when the
channel is empty. -/
def mergeShotsList (items : List OutputItem) (shots : List Screenshot) :
    List OutputItem :=
  match items with
  | [] => [mergeShotsIntoItem { json := some [], binary := some [] } shots]
  | it :: rest => mergeShotsIntoItem it shots :: rest

/-- Lines 937-944: ensure the result has an output channel (adding
`A: []` when neither `A` nor `output1` exists) and pick the channel. -/
def ensureOutputKey (o : ResObj) : ResObj :=
  if o.output1.isNone && o.A.isNone then { o with A := some [] } else o

/-- Attach the screenshots to the chosen output channel of the result
object (remoteExecutor.ts:931-984). -/
def addScreenshotsToObj (o : ResObj) (shots : List Screenshot) : ResObj :=
  let o1 := ensureOutputKey o
  match o1.A with
  | some items => { o1 with A := some (mergeShotsList items shots) }
  | none => { o1 with output1 := some (mergeShotsList (o1.output1.getD []) shots) }

/-- The auto-screenshot hook (remoteExecutor.ts:905-992): runs only
when capture was requested and the browser is still connected; with no
captured screenshot the result is untouched; a non-object result is
replaced by `{}` before merging.  Nothing in the hook fails the call. -/
def autoScreenshotHook (ec : ExecutionContext) (b : Browser) (v : FragVal) : FragVal :=
  if ec.autoScreenshot && b.connected then
    let shots := collectScreenshots b
    if shots.isEmpty then v
    else
      let o := match v with
        | .obj o => o
        | .nonObj _ => emptyObj
      .obj (addScreenshotsToObj o shots)
  else v

/-- Result of the retention-policy block: the record, the surviving
`activeInstanceId`, and whether the registry entry was deleted. -/
structure RetainOut where
  record : BrowserRecord
  activeId : Option String
  deleted : Bool
deriving Repr, DecidableEq

/-- Lines 1036-1055: for persistent records with a non-empty
pre-teardown context snapshot, refresh `primaryContext` to the
snapshot's first context when it is unset or gone, and prune named
contexts not in the snapshot together with their metadata. -/
def refreshPersistent (snapshot : List Nat) (r : BrowserRecord) : BrowserRecord :=
  if r.persistentContext && decide (0 < snapshot.length) then
    let r1 :=
      if (match r.primaryContext with
          | none => true
          | some c => !snapshot.contains c) then
        { r with primaryContext := snapshot.head? }
      else r
    let removed := (r1.contexts.filter (fun p => !snapshot.contains p.2)).map (·.1)
    { r1 with
        contexts := r1.contexts.filter (fun p => snapshot.contains p.2)
        contextMetadata := r1.contextMetadata.filter (fun p => !removed.contains p.1) }
  else r

/-- The success-path lifecycle block (remoteExecutor.ts:994-1056).
When the browser is still connected: keepContext=false closes every
context, closes the browser and evicts the registry entry (the
`contexts` snapshot of line 996 is taken before closing);
keepContext=true, keepPage=false closes only the pages; otherwise
nothing closes.  The persistent-record refresh then runs against the
snapshot.  A disconnected browser skips the whole block. -/
def applyRetention (ec : ExecutionContext) (rec0 : BrowserRecord)
    (activeId : Option String) : RetainOut :=
  if rec0.browser.connected then
    let snapshot := rec0.browser.openIds
    if !ec.keepContext then
      { record := refreshPersistent snapshot
          { rec0 with browser := Browser.closeBrowser (Browser.closeAllCtxs rec0.browser) }
        activeId := none, deleted := activeId.isSome }
    else if !ec.keepPage then
      { record := refreshPersistent snapshot
          { rec0 with browser := Browser.closeOpenPages rec0.browser }
        activeId := activeId, deleted := false }
    else
      { record := refreshPersistent snapshot rec0
        activeId := activeId, deleted := false }
  else
    { record := rec0, activeId := activeId, deleted := false }

/-- The fallback close (remoteExecutor.ts:1058-1065) for newly created
ephemeral instances. -/
def fallbackClose (ec : ExecutionContext) (shouldClose : Bool)
    (r : BrowserRecord) : BrowserRecord :=
  if shouldClose && !ec.keepContext && r.browser.connected then
    { r with browser := Browser.closeBrowser r.browser }
  else r

/-- Defensive wrap (remoteExecutor.ts:1067-1070): a non-object result
becomes `{ output1: [], __rawResult: result }`. -/
def wrapPayload (v : FragVal) : ResObj :=
  match v with
  | .obj o => o
  | .nonObj tag =>
    { A := none, output1 := some [], rawResult := some tag
      playwrightInstanceId := none }

/-- Lines 1072-1077: the reserved field carries the instance id only
when `keepContext` is set. -/
def attachInstanceId (ec : ExecutionContext) (activeId : Option String)
    (o : ResObj) : ResObj :=
  match (if ec.keepContext then activeId else none) with
  | some iid => { o with playwrightInstanceId := some iid }
  | none => o

/-- How one `service.execute` call ends: callback with a result,
callback with an RPC error value, or an exception escaping the async
function so that the callback is never invoked. -/
inductive ExecResult where
  | ok (payload : ResObj)
  | rpcError (msg : String)
  | crash (msg : String)
deriving Repr, DecidableEq

/-- Everything observable about one `execute` call: the callback (or
crash), the process state afterwards, plus the call's own locals
(`browserRecord` at exit, `activeInstanceId` right after resolution,
and whether a new browser was launched). -/
structure ExecOut where
  res : ExecResult
  state : ServerState
  finalRecord : Option BrowserRecord
  resolvedId : Option String
  createdNew : Bool
deriving Repr, DecidableEq

/-- Write the (aliased, in-place mutated) record back under its
registry key. -/
def syncInst (insts : Registry) (activeId : Option String)
    (r : BrowserRecord) : Registry :=
  match activeId with
  | some iid => updateInst insts iid r
  | none => insts

/-- Continuation of `execute` after the fragment has run: the
success-path post-processing (hook, retention, fallback close, wrap,
reserved field) and the error-path `catch` block.  When the fragment
raises, control reaches the `catch` block at remoteExecutor.ts:1080,
whose first statement reads `executionContext.keepContext`;
`executionContext` (and `browserRecord`, `activeInstanceId`,
`createdNewInstance`) are `const`/`let` declarations scoped to the
`try` block (lines 675-696), so that read raises
`ReferenceError: executionContext is not defined` out of the async
function: none of the catch block's teardown runs and the callback is
never invoked. -/
def executePost (st : ServerState) (ec : ExecutionContext) (ro : ResolveOut)
    (rec1 : BrowserRecord) : FragOutcome → ExecOut
  | .err b2 _msg =>
    let rec2 := { rec1 with browser := b2 }
    { res := .crash "executionContext is not defined"
      state := { st with instances := syncInst ro.insts ro.activeId rec2,
                         uuidCtr := ro.ctr }
      finalRecord := some rec2, resolvedId := ro.activeId
      createdNew := ro.createdNew }
  | .ok b2 v =>
    let rec2 := { rec1 with browser := b2 }
    let v1 := autoScreenshotHook ec rec2.browser v
    let rt := applyRetention ec rec2 ro.activeId
    let rec3 := fallbackClose ec ro.shouldClose rt.record
    let payload := attachInstanceId ec rt.activeId (wrapPayload v1)
    let insts1 :=
      if rt.deleted then
        (match ro.activeId with
         | some iid => eraseInst ro.insts iid
         | none => ro.insts)
      else syncInst ro.insts ro.activeId rec3
    { res := .ok payload
      state := { st with instances := insts1, uuidCtr := ro.ctr }
      finalRecord := some rec3, resolvedId := ro.activeId
      createdNew := ro.createdNew }

/-- The third-segment `service.execute`
(remoteExecutor.ts:661-1125): parse metadata, resolve or create the
session, revalidate the primary context, run the fragment against the
session's browser and finish with `executePost`. -/
def execute (st : ServerState) (meta : ExecMeta) (frag : Fragment) : ExecOut :=
  let pm := parseMeta st meta
  let ec := pm.1
  let ro := resolveInstance st.instances pm.2 st.now ec
  -- (the `!browserRecord || !browserRecord.browser` guard of line 768 is
  -- unreachable: every resolution branch yields a record with a browser)
  let rec1 := revalidatePrimary ro.record
  executePost st ec ro rec1 (frag rec1.browser)

/-! ### Explicit-instance lookup of the second server segment
(remoteExecutor.ts:363-506).  That segment's records carry only the
browser handle and identity fields. -/

/-- A registry entry of the second server segment
(remoteExecutor.ts:408-413). -/
structure RecordV2 where
  browser : Browser
  createdAt : Nat
  workflowId : String
  executionId : String
deriving Repr, DecidableEq

/-- The second segment's `browserInstances` map. -/
abbrev RegistryV2 := List (String × RecordV2)

/-- `browserInstances.get iid` for the second segment. -/
def lookupInstV2 (l : RegistryV2) (iid : String) : Option RecordV2 :=
  match l with
  | [] => none
  | p :: rest => if p.1 == iid then some p.2 else lookupInstV2 rest iid

/-- `browserInstances.delete iid` for the second segment. -/
def eraseInstV2 (l : RegistryV2) (iid : String) : RegistryV2 :=
  l.filter (fun p => !(p.1 == iid))

/-- The error string of remoteExecutor.ts:402. -/
def notFoundMsg (iid : String) : String :=
  "Browser instance \x27" ++ iid ++ "\x27 not found or already closed"

/-- Outcome of the second segment's resolution prelude
(remoteExecutor.ts:391-422): either the callback is invoked with a
resolution error, or a record is at hand (found or freshly launched). -/
inductive ResolveV2Out where
  | failed (errMsg : String) (insts : RegistryV2)
  | resolved (record : RecordV2) (activeId : Option String) (createdNew : Bool)
      (shouldClose : Bool) (insts : RegistryV2)
deriving Repr, DecidableEq

/-- The second segment's resolution (remoteExecutor.ts:391-422): a
requested instance id must already exist with a connected browser —
a stale entry is dropped and the call fails with a resolution error,
creating nothing; without a requested id a fresh browser is launched,
registered under a fresh id only when `keepInstance` is set. -/
def resolveV2 (insts : RegistryV2) (ctr now : Nat) (wf eid : String)
    (keepInstance : Bool) (requested : Option String) : ResolveV2Out :=
  match requested with
  | some iid =>
    (match lookupInstV2 insts iid with
     | some r =>
       if r.browser.connected then
         .resolved r (some iid) false false insts
       else
         .failed (notFoundMsg iid) (eraseInstV2 insts iid)
     | none => .failed (notFoundMsg iid) insts)
  | none =>
    let r : RecordV2 :=
      { browser := freshBrowser, createdAt := now, workflowId := wf
        executionId := eid }
    if keepInstance then
      .resolved r (some (uuidGen ctr)) true false
        (if insts.any (fun p => p.1 == uuidGen ctr) then
          insts.map (fun p => if p.1 == uuidGen ctr then (uuidGen ctr, r) else p)
         else insts ++ [(uuidGen ctr, r)])
    else
      .resolved r none true true insts

/-! ### Named-context lookup (remoteExecutor.ts:845-876). -/

/-- Splitting a character list on the dash separator
(`contextId.split("-")` semantics). -/
def splitDash : List Char → List (List Char)
  | [] => [[]]
  | c :: rest =>
    if c == Char.ofNat 45 then [] :: splitDash rest
    else
      match splitDash rest with
      | [] => [[c]]
      | g :: gs => (c :: g) :: gs

/-- One decimal digit's value. -/
def digitVal (c : Char) : Option Nat :=
  if 48 ≤ c.toNat && c.toNat ≤ 57 then some (c.toNat - 48) else none

/-- Accumulator pass of decimal parsing. -/
def parseNatAux : List Char → Nat → Option Nat
  | [], acc => some acc
  | c :: rest, acc =>
    match digitVal c with
    | some d => parseNatAux rest (acc * 10 + d)
    | none => none

/-- Parse a non-empty all-digit character list as a decimal number. -/
def parseNatChars (cs : List Char) : Option Nat :=
  match cs with
  | [] => none
  | _ => parseNatAux cs 0

/-- `pre` is a leading piece of `s` (`s.startsWith(pre)` semantics). -/
def listLeads : List Char → List Char → Bool
  | [], _ => true
  | _ :: _, [] => false
  | c :: cs, d :: ds => c == d && listLeads cs ds

/-- `contextId.startsWith(contextName + "-")`. -/
def strStartsWithDash (contextId contextName : String) : Bool :=
  listLeads (contextName.data ++ [Char.ofNat 45]) contextId.data

/-- Modelled from the spec: `extractTimestamp` is called at
remoteExecutor.ts:861 and 866 but is defined nowhere under src/.  The
spec describes named contexts as "optionally timestamp-suffixed" keys
whose tie-break uses the creation timestamp, so the function reads the
numeric suffix after the final dash of the context id (0 when there is
none). -/
def extractTimestamp (contextId : String) : Nat :=
  match (splitDash contextId.data).getLast? with
  | some last => (parseNatChars last).getD 0
  | none => 0

/-- One element of the `matchingContexts` array built by
`getContextByName` (remoteExecutor.ts:851-869). -/
structure CtxMatch where
  contextId : String
  context : Nat
  timestamp : Nat
deriving Repr, DecidableEq

/-- Descending-timestamp order, the comparator
`(a, b) => b.timestamp - a.timestamp` of remoteExecutor.ts:872. -/
def tsGe (a b : CtxMatch) : Prop := b.timestamp ≤ a.timestamp

instance : DecidableRel tsGe := fun a b => Nat.decLe b.timestamp a.timestamp

instance : IsTotal CtxMatch tsGe :=
  ⟨fun a b => Nat.le_total b.timestamp a.timestamp⟩

instance : IsTrans CtxMatch tsGe :=
  ⟨fun _ _ _ h1 h2 => Nat.le_trans h2 h1⟩

/-- The candidate collection loop of `getContextByName`
(remoteExecutor.ts:851-869): a registered named context qualifies when
its context object is still live and its id matches the requested name
exactly or as that name followed by a dash. -/
def matchingContexts (r : BrowserRecord) (contextName : String) : List CtxMatch :=
  r.contexts.filterMap fun p =>
    if !(r.browser.openIds.contains p.2) then none
    else if p.1 == contextName then
      some { contextId := p.1, context := p.2, timestamp := extractTimestamp p.1 }
    else if strStartsWithDash p.1 contextName then
      some { contextId := p.1, context := p.2, timestamp := extractTimestamp p.1 }
    else none

/-- `getContextByName` (remoteExecutor.ts:845-876): collect the live
matches, sort them by timestamp descending and return the first, or
null when nothing matches. -/
def getContextByName (r : BrowserRecord) (contextName : String) : Option Nat :=
  if r.contexts.isEmpty then none
  else
    let ms := matchingContexts r contextName
    if ms.isEmpty then none
    else ((ms.insertionSort tsGe).head?).map (·.context)

/-! ### Connection handlers (server: remoteExecutor.ts:1138-1189,
client: remoteExecutor.ts:60-158). -/

/-- Server-side per-connection state of the `net.createServer`
handler. -/
structure ServerConn where
  authenticated : Bool
  buffer : String
  dnodeUp : Bool
  socketOpen : Bool
  written : List String
deriving Repr, DecidableEq

/-- Events a connection can experience.  `timePasses` models elapsed
time units with no traffic. -/
inductive ConnEvent where
  | dataChunk (s : String)
  | endOfStream
  | timePasses (units : Nat)
deriving Repr, DecidableEq

/-- The state of a freshly accepted connection
(remoteExecutor.ts:1139-1141). -/
def serverConnInit : ServerConn :=
  { authenticated := false, buffer := "", dnodeUp := false
    socketOpen := true, written := [] }

/-- The server's connection handler (remoteExecutor.ts:1143-1184).
Data before authentication is buffered until a newline arrives; the
first line is compared to the password, answering `OK` (and switching
the stream to dnode) or `AUTH_FAILED` (and ending the socket).  The
handler registers no timer whatsoever, so the passage of time changes
nothing. -/
def serverConnStep (pw : String) (c : ServerConn) : ConnEvent → ServerConn
  | .dataChunk s =>
    if c.authenticated || !c.socketOpen then c
    else
      let buf := c.buffer ++ s
      if buf.contains (Char.ofNat 10) then
        let attempt := ((buf.splitOn "\n").headD "").trim
        if attempt == pw then
          { c with authenticated := true, buffer := "", dnodeUp := true
                   written := c.written ++ ["OK\n"] }
        else
          { c with buffer := "", socketOpen := false
                   written := c.written ++ ["AUTH_FAILED\n"] }
      else { c with buffer := buf }
  | .endOfStream => { c with socketOpen := false }
  | .timePasses _ => c

/-- Run a connection through a sequence of events. -/
def serverConnRun (pw : String) (evts : List ConnEvent) : ServerConn :=
  evts.foldl (serverConnStep pw) serverConnInit

/-- How the promise returned by `executeRemote` settles. -/
inductive ClientOutcome where
  | fulfilled
  | rejected (msg : String)
deriving Repr, DecidableEq

/-- Client-side view of `executeRemote`'s pending connection
(remoteExecutor.ts:89-156). -/
structure ClientConn where
  authenticated : Bool
  streamOpen : Bool
  outcome : Option ClientOutcome
deriving Repr, DecidableEq

/-- The freshly connected client. -/
def clientConnInit : ClientConn :=
  { authenticated := false, streamOpen := true, outcome := none }

/-- The delay of the client-side `setTimeout` at
remoteExecutor.ts:151-156, in milliseconds. -/
def clientAuthTimeoutMs : Nat := 30000

/-- The client's timeout callback (remoteExecutor.ts:151-156): when
authentication has not completed, end the stream and reject; a settled
promise stays settled. -/
def clientTimeoutFires (c : ClientConn) : ClientConn :=
  if !c.authenticated then
    { c with streamOpen := false
             outcome := match c.outcome with
               | some o => some o
               | none => some (ClientOutcome.rejected "Connection timeout") }
  else c

/-! ## Concrete scenarios -/

/-- The process as it starts: empty registry. -/
def emptyState : ServerState := { instances := [], uuidCtr := 0, now := 0 }

/-- An `execute` call with an empty metadata object. -/
def metaDefault : ExecMeta :=
  { workflowId := none, workflowName := none, executionId := none, nodeId := none
    nodeName := none, keepContext := false, keepPage := false
    autoScreenshot := false, contextId := none }

/-- Metadata of a retention-requesting call in workflow `wf`,
execution `e1`. -/
def metaWf1Keep : ExecMeta :=
  { metaDefault with workflowId := some "wf", executionId := some "e1"
                     keepContext := true }

/-- Metadata of a retention-free call in workflow `wf`, execution
`e1`. -/
def metaWf1NoKeep : ExecMeta :=
  { metaDefault with workflowId := some "wf", executionId := some "e1" }

/-- A code fragment that throws `Error("boom")`. -/
def fragBoom : Fragment := fun b => .err b "boom"

/-- A code fragment that returns `{}` and leaves the browser alone. -/
def fragOkEmpty : Fragment := fun b => .ok b (.obj emptyObj)

/-- A code fragment that calls `browser.close()` itself and then
returns `{}`. -/
def fragClosesBrowser : Fragment :=
  fun b => .ok (Browser.closeBrowser (Browser.closeAllCtxs b)) (.obj emptyObj)

/-- A registered persistent session of workflow `wf`, execution `e1`,
with a live controller. -/
def persistentRec : BrowserRecord :=
  { browser := freshBrowser, createdAt := 0, workflowId := "wf"
    executionId := "e1", lastExecutionId := "e1", keepContext := true
    keepPage := false, persistentContext := true, primaryContext := none
    contexts := [], contextMetadata := [] }

/-- A process whose registry holds `persistentRec` under id `i1`. -/
def stWithPersistent : ServerState :=
  { instances := [("i1", persistentRec)], uuidCtr := 0, now := 0 }

/-! ## Helper lemmas -/

theorem revalidatePrimary_browser (r : BrowserRecord) :
    (revalidatePrimary r).browser = r.browser := by
  unfold revalidatePrimary
  split
  · split
    · split <;> rfl
    · rfl
  · rfl

theorem scanExact_eq_find (wf eid : String) :
    ∀ l : Registry,
      scanExact wf eid l =
        l.find? (fun p => p.2.workflowId == wf && p.2.executionId == eid &&
          p.2.browser.connected)
  | [] => rfl
  | (iid, r) :: rest => by
    by_cases h : (r.workflowId == wf && r.executionId == eid && r.browser.connected) = true
    · rw [scanExact, if_pos h]
      exact (List.find?_cons_of_pos
        (p := fun q => q.2.workflowId == wf && q.2.executionId == eid && q.2.browser.connected)
        (a := (iid, r)) rest h).symm
    · rw [scanExact, if_neg h, scanExact_eq_find wf eid rest]
      exact (List.find?_cons_of_neg
        (p := fun q => q.2.workflowId == wf && q.2.executionId == eid && q.2.browser.connected)
        (a := (iid, r)) rest h).symm

theorem scanPersistent_eq_find (wf : String) :
    ∀ l : Registry,
      scanPersistent wf l =
        l.find? (fun p => p.2.workflowId == wf && p.2.persistentContext &&
          p.2.browser.connected)
  | [] => rfl
  | (iid, r) :: rest => by
    by_cases h : (r.workflowId == wf && r.persistentContext && r.browser.connected) = true
    · rw [scanPersistent, if_pos h]
      exact (List.find?_cons_of_pos
        (p := fun q => q.2.workflowId == wf && q.2.persistentContext && q.2.browser.connected)
        (a := (iid, r)) rest h).symm
    · rw [scanPersistent, if_neg h, scanPersistent_eq_find wf rest]
      exact (List.find?_cons_of_neg
        (p := fun q => q.2.workflowId == wf && q.2.persistentContext && q.2.browser.connected)
        (a := (iid, r)) rest h).symm

theorem mem_of_scanExact (wf eid : String) (l : Registry) (iid : String)
    (r : BrowserRecord) (h : scanExact wf eid l = some (iid, r)) :
    (iid, r) ∈ l ∧ r.workflowId = wf ∧ r.executionId = eid ∧
      r.browser.connected = true := by
  rw [scanExact_eq_find] at h
  refine ⟨List.mem_of_find?_eq_some h, ?_⟩
  have hp := List.find?_some h
  simp only [Bool.and_eq_true, beq_iff_eq] at hp
  exact ⟨hp.1.1, hp.1.2, hp.2⟩

theorem scanExact_none (wf eid : String) (l : Registry)
    (h : scanExact wf eid l = none) :
    ∀ q ∈ l, (q.2.workflowId == wf && q.2.executionId == eid &&
      q.2.browser.connected) = false := by
  rw [scanExact_eq_find] at h
  intro q hq
  have := List.find?_eq_none.mp h q hq
  simpa using this

theorem lookupInst_updateInst (iid : String) (r : BrowserRecord) :
    ∀ l : Registry, l.any (fun p => p.1 == iid) = true →
      lookupInst (updateInst l iid r) iid = some r := by
  intro l
  induction l with
  | nil => intro h; simp at h
  | cons p rest ih =>
    intro h
    by_cases hp : (p.1 == iid) = true
    · simp [updateInst, lookupInst, hp]
    · have hrest : rest.any (fun q => q.1 == iid) = true := by
        simp only [List.any_cons, Bool.or_eq_true] at h
        rcases h with h | h
        · exact absurd h hp
        · exact h
      simpa [updateInst, lookupInst, hp] using ih hrest

theorem lookupInst_append_fresh (iid : String) (r : BrowserRecord) :
    ∀ l : Registry, l.any (fun p => p.1 == iid) = false →
      lookupInst (l ++ [(iid, r)]) iid = some r := by
  intro l
  induction l with
  | nil => intro _; simp [lookupInst]
  | cons p rest ih =>
    intro h
    rw [List.any_cons] at h
    have hp : (p.1 == iid) = false := by
      cases hb : (p.1 == iid) with
      | false => rfl
      | true => rw [hb, Bool.true_or] at h; exact absurd h (by simp)
    have hrest : rest.any (fun q => q.1 == iid) = false := by
      rw [hp, Bool.false_or] at h; exact h
    simpa [lookupInst, hp] using ih hrest

theorem lookupInst_setInst (l : Registry) (iid : String) (r : BrowserRecord) :
    lookupInst (setInst l iid r) iid = some r := by
  unfold setInst
  by_cases h : l.any (fun p => p.1 == iid) = true
  · rw [if_pos h]; exact lookupInst_updateInst iid r l h
  · rw [if_neg h]
    exact lookupInst_append_fresh iid r l (Bool.eq_false_iff.mpr h)

theorem mem_eraseInst (l : Registry) (iid : String) (q : String × BrowserRecord) :
    q ∈ eraseInst l iid ↔ q ∈ l ∧ (q.1 == iid) = false := by
  unfold eraseInst
  simp [List.mem_filter]

theorem lookupInst_eraseInst (iid : String) :
    ∀ l : Registry, lookupInst (eraseInst l iid) iid = none := by
  intro l
  induction l with
  | nil => rfl
  | cons p rest ih =>
    by_cases hp : (p.1 == iid) = true
    · simpa [eraseInst, List.filter, hp] using ih
    · simpa [eraseInst, List.filter, lookupInst, hp] using ih

theorem length_le_one_elems_eq {α : Type} (l : List α) (h : l.length ≤ 1) :
    ∀ a ∈ l, ∀ b ∈ l, a = b := by
  match l with
  | [] => intro a ha; cases ha
  | [x] =>
    intro a ha b hb
    simp only [List.mem_singleton] at ha hb
    rw [ha, hb]
  | x :: y :: rest => simp at h

theorem refreshPersistent_browser (s : List Nat) (r : BrowserRecord) :
    (refreshPersistent s r).browser = r.browser := by
  unfold refreshPersistent
  split
  · split <;> rfl
  · rfl

theorem applyRetention_keepNothing (ec : ExecutionContext) (r : BrowserRecord)
    (aid : Option String) (hkc : ec.keepContext = false)
    (hconn : r.browser.connected = true) :
    (applyRetention ec r aid).record.browser.connected = false ∧
    (applyRetention ec r aid).activeId = none ∧
    (applyRetention ec r aid).deleted = aid.isSome := by
  unfold applyRetention
  rw [if_pos hconn]
  simp [hkc, refreshPersistent_browser, Browser.closeBrowser]

theorem applyRetention_keep (ec : ExecutionContext) (r : BrowserRecord)
    (aid : Option String) (hkc : ec.keepContext = true) :
    (applyRetention ec r aid).activeId = aid ∧
    (applyRetention ec r aid).deleted = false := by
  unfold applyRetention
  by_cases h : r.browser.connected = true
  · rw [if_pos h]
    simp only [hkc, Bool.not_true, Bool.false_eq_true, if_false]
    by_cases hp : ec.keepPage = true
    · simp [hp]
    · simp [Bool.of_not_eq_true hp]
  · rw [if_neg h]
    exact ⟨rfl, rfl⟩

theorem fallbackClose_disconnected (ec : ExecutionContext) (sc : Bool)
    (r : BrowserRecord) (h : r.browser.connected = false) :
    fallbackClose ec sc r = r := by
  unfold fallbackClose
  simp [h]

theorem parseMeta_workflowId (st : ServerState) (meta : ExecMeta) :
    ((parseMeta st meta).1).workflowId = meta.workflowId.getD "unknown-workflow" := by
  unfold parseMeta
  rcases h : meta.executionId with _ | e <;> simp [h]

theorem parseMeta_keepContext (st : ServerState) (meta : ExecMeta) :
    ((parseMeta st meta).1).keepContext = (meta.keepContext || meta.keepPage) := by
  unfold parseMeta
  rcases h : meta.executionId with _ | e <;> simp [h]

theorem parseMeta_keepPage (st : ServerState) (meta : ExecMeta) :
    ((parseMeta st meta).1).keepPage = meta.keepPage := by
  unfold parseMeta
  rcases h : meta.executionId with _ | e <;> simp [h]

theorem parseMeta_executionId (st : ServerState) (meta : ExecMeta) (eid : String)
    (h : meta.executionId = some eid) :
    ((parseMeta st meta).1).executionId = eid := by
  unfold parseMeta
  simp [h]

theorem mem_of_scanPersistent (wf : String) (l : Registry) (iid : String)
    (r : BrowserRecord) (h : scanPersistent wf l = some (iid, r)) :
    (iid, r) ∈ l := by
  rw [scanPersistent_eq_find] at h
  exact List.mem_of_find?_eq_some h

theorem execute_unfold (st : ServerState) (meta : ExecMeta) (frag : Fragment) :
    execute st meta frag =
      executePost st (parseMeta st meta).1
        (resolveInstance st.instances (parseMeta st meta).2 st.now (parseMeta st meta).1)
        (revalidatePrimary
          (resolveInstance st.instances (parseMeta st meta).2 st.now (parseMeta st meta).1).record)
        (frag (revalidatePrimary
          (resolveInstance st.instances (parseMeta st meta).2 st.now (parseMeta st meta).1).record).browser) :=
  rfl

theorem executePost_ok_res (st : ServerState) (ec : ExecutionContext)
    (ro : ResolveOut) (rec1 : BrowserRecord) (b2 : Browser) (v : FragVal) :
    (executePost st ec ro rec1 (FragOutcome.ok b2 v)).res =
      ExecResult.ok (attachInstanceId ec
        (applyRetention ec { rec1 with browser := b2 } ro.activeId).activeId
        (wrapPayload (autoScreenshotHook ec b2 v))) :=
  rfl

theorem executePost_ok_resolvedId (st : ServerState) (ec : ExecutionContext)
    (ro : ResolveOut) (rec1 : BrowserRecord) (b2 : Browser) (v : FragVal) :
    (executePost st ec ro rec1 (FragOutcome.ok b2 v)).resolvedId = ro.activeId :=
  rfl

theorem executePost_ok_finalRecord (st : ServerState) (ec : ExecutionContext)
    (ro : ResolveOut) (rec1 : BrowserRecord) (b2 : Browser) (v : FragVal) :
    (executePost st ec ro rec1 (FragOutcome.ok b2 v)).finalRecord =
      some (fallbackClose ec ro.shouldClose
        (applyRetention ec { rec1 with browser := b2 } ro.activeId).record) :=
  rfl

theorem executePost_ok_instances (st : ServerState) (ec : ExecutionContext)
    (ro : ResolveOut) (rec1 : BrowserRecord) (b2 : Browser) (v : FragVal) :
    (executePost st ec ro rec1 (FragOutcome.ok b2 v)).state.instances =
      (if (applyRetention ec { rec1 with browser := b2 } ro.activeId).deleted then
        (match ro.activeId with
         | some iid => eraseInst ro.insts iid
         | none => ro.insts)
      else syncInst ro.insts ro.activeId
        (fallbackClose ec ro.shouldClose
          (applyRetention ec { rec1 with browser := b2 } ro.activeId).record)) :=
  rfl

theorem executePost_err_res (st : ServerState) (ec : ExecutionContext)
    (ro : ResolveOut) (rec1 : BrowserRecord) (b2 : Browser) (m : String) :
    (executePost st ec ro rec1 (FragOutcome.err b2 m)).res =
      ExecResult.crash "executionContext is not defined" :=
  rfl

/-! ## Claim C4 -/

/-- Claim C4: resolution order for calls without an explicit session
id.  First a live exact `(scopeId, jobId)` match wins (registry
untouched, nothing created); failing that, and only when retention is
requested, the first persistent session of the scope with a live
controller is reused — its `lastJobId` updated to the new job and the
updated record stored under its id; only when neither exists is a new
controller created. -/
theorem c4_resolution_priority (insts : Registry) (ctr now : Nat)
    (ec : ExecutionContext) :
    match insts.find? (fun q => q.2.workflowId == ec.workflowId &&
        q.2.executionId == ec.executionId && q.2.browser.connected) with
    | some (iid, r) =>
      (resolveInstance insts ctr now ec).activeId = some iid ∧
      (resolveInstance insts ctr now ec).record = r ∧
      (resolveInstance insts ctr now ec).createdNew = false ∧
      (resolveInstance insts ctr now ec).insts = insts
    | none =>
      match (if ec.keepContext then
               insts.find? (fun q => q.2.workflowId == ec.workflowId &&
                 q.2.persistentContext && q.2.browser.connected)
             else none) with
      | some (iid, r) =>
        (resolveInstance insts ctr now ec).activeId = some iid ∧
        (resolveInstance insts ctr now ec).createdNew = false ∧
        (resolveInstance insts ctr now ec).record =
          { r with lastExecutionId := ec.executionId, persistentContext := true } ∧
        lookupInst (resolveInstance insts ctr now ec).insts iid =
          some (resolveInstance insts ctr now ec).record
      | none =>
        (resolveInstance insts ctr now ec).createdNew = true ∧
        (resolveInstance insts ctr now ec).record = newRecord now ec ∧
        (if ec.keepContext then
           (resolveInstance insts ctr now ec).activeId = some (uuidGen ctr) ∧
           lookupInst (resolveInstance insts ctr now ec).insts (uuidGen ctr) =
             some (resolveInstance insts ctr now ec).record
         else
           (resolveInstance insts ctr now ec).activeId = none ∧
           (resolveInstance insts ctr now ec).insts = insts) := by
  rw [← scanExact_eq_find ec.workflowId ec.executionId insts,
      ← scanPersistent_eq_find ec.workflowId insts]
  cases hE : scanExact ec.workflowId ec.executionId insts with
  | some pr =>
    obtain ⟨iid, r⟩ := pr
    unfold resolveInstance
    rw [hE]
    exact ⟨rfl, rfl, rfl, rfl⟩
  | none =>
    cases hkc : ec.keepContext with
    | false =>
      unfold resolveInstance
      rw [hE, hkc]
      exact ⟨rfl, rfl, ⟨rfl, rfl⟩⟩
    | true =>
      cases hP : scanPersistent ec.workflowId insts with
      | some pr =>
        obtain ⟨iid, r⟩ := pr
        unfold resolveInstance
        rw [hE, hkc, hP]
        refine ⟨rfl, rfl, rfl, ?_⟩
        apply lookupInst_updateInst
        exact List.any_eq_true.mpr
          ⟨(iid, r), mem_of_scanPersistent ec.workflowId insts iid r hP, by simp⟩
      | none =>
        unfold resolveInstance
        rw [hE, hkc, hP]
        exact ⟨rfl, rfl, ⟨rfl, lookupInst_setInst insts (uuidGen ctr) (newRecord now ec)⟩⟩

/-! ## Claim C1 -/

/-- Claim C1: the claim says a fragment raising `Error("boom")` makes
`execute` invoke its callback with `(error = "boom", result = null)`
and never crashes the process.  The code does neither: the `catch`
block reads the try-scoped `executionContext`, so the call ends in a
`ReferenceError` escaping the async function and the callback is never
invoked. -/
theorem c1_error_path_crashes :
    (execute emptyState metaDefault fragBoom).res =
      ExecResult.crash "executionContext is not defined" := by
  rfl

/-! ## Claim C2 -/

/-- Claim C2: the claim says a thrown error applies the retention
policy exactly as on the success path (keepContext=false: close the
controller and evict the entry).  At this input — a registered
persistent session `(wf, e1)` with a live controller, a
keepContext=false call whose fragment throws — the `catch` block's
`ReferenceError` aborts before any teardown: the call crashes, the
registry entry survives and its controller is still connected. -/
theorem c2_error_path_leaks_controller :
    (execute stWithPersistent metaWf1NoKeep fragBoom).res =
      ExecResult.crash "executionContext is not defined" ∧
    lookupInst (execute stWithPersistent metaWf1NoKeep fragBoom).state.instances "i1" =
      some persistentRec ∧
    persistentRec.browser.connected = true := by
  exact ⟨rfl, rfl, rfl⟩

/-! ## Claim C3 -/

/-- Claim C3 counterexample: the claim says every
`wantsRetentionOfContext=false` call leaves no registry entry matching
its `(scopeId, jobId)`.  Concretely: a first call with retention
registers a session for `(wf, e1)`; a second call without retention,
same identity, whose fragment itself calls `browser.close()`, returns
normally — the `isConnected()` guard then skips the whole teardown,
so the (now dead) registry entry for `(wf, e1)` remains. -/
theorem c3_counterexample :
    (execute (execute emptyState metaWf1Keep fragOkEmpty).state
        metaWf1NoKeep fragClosesBrowser).res = ExecResult.ok emptyObj ∧
    ((execute (execute emptyState metaWf1Keep fragOkEmpty).state
        metaWf1NoKeep fragClosesBrowser).state.instances.any
      (fun p => p.2.workflowId == "wf" && p.2.executionId == "e1")) = true := by
  exact ⟨rfl, rfl⟩

/-! ## Claim C9 -/

/-- Claim C9 counterexample: the claim says the server force-closes an
unauthenticated connection after a bounded wait (default 30 time
units).  The server's connection handler registers no timer at all: an
idle unauthenticated connection that has seen 31 time units is still
open and still unauthenticated. -/
theorem c9_counterexample :
    (serverConnRun "default-password-change-me"
        [ConnEvent.timePasses 31]).socketOpen = true ∧
    (serverConnRun "default-password-change-me"
        [ConnEvent.timePasses 31]).authenticated = false := by
  exact ⟨rfl, rfl⟩

/-- Claim C9 amended: the server imposes no bound — an idle
unauthenticated connection stays in its initial (open,
unauthenticated) state for any number of elapsed time units; the
30-second bound lives on the client, whose timer ends the stream and
rejects the pending promise when authentication has not completed. -/
theorem c9_amended_client_timeout_only :
    (∀ (pw : String) (n : Nat),
        serverConnRun pw (List.replicate n (ConnEvent.timePasses 1)) = serverConnInit) ∧
    clientAuthTimeoutMs = 30000 ∧
    (clientTimeoutFires clientConnInit).streamOpen = false ∧
    (clientTimeoutFires clientConnInit).outcome =
      some (ClientOutcome.rejected "Connection timeout") := by
  refine ⟨?_, rfl, rfl, rfl⟩
  intro pw n
  induction n with
  | zero => rfl
  | succ k ih =>
    rw [List.replicate_succ, serverConnRun, List.foldl_cons]
    exact ih

/-! ## Claim C6 -/

/-- Claim C6: supplying an explicit instance id that is absent from
the registry, or whose controller is no longer connected, makes the
call return the resolution error through the RPC error value; the
registry afterwards holds only entries it already held (a stale entry
may be dropped) and nothing is created. -/
theorem c6_explicit_id_resolution_error (insts : RegistryV2) (ctr now : Nat)
    (wf eid : String) (keep : Bool) (iid : String)
    (hbad : ((lookupInstV2 insts iid).all (fun r => !r.browser.connected)) = true) :
    ∃ insts2,
      resolveV2 insts ctr now wf eid keep (some iid) =
        ResolveV2Out.failed (notFoundMsg iid) insts2 ∧
      (∀ q ∈ insts2, q ∈ insts) ∧ insts2.length ≤ insts.length := by
  cases h : lookupInstV2 insts iid with
  | none =>
    refine ⟨insts, ?_, fun q hq => hq, Nat.le_refl _⟩
    simp [resolveV2, h]
  | some r =>
    rw [h] at hbad
    have hc : r.browser.connected = false := by simpa using hbad
    refine ⟨eraseInstV2 insts iid, ?_, ?_, ?_⟩
    · simp [resolveV2, h, hc]
    · intro q hq
      unfold eraseInstV2 at hq
      exact (List.mem_filter.mp hq).1
    · exact List.length_filter_le _ _

/-- A dead registered instance of the second segment. -/
def deadRecV2 : RecordV2 :=
  { browser := { connected := false, heap := [], openIds := [] }
    createdAt := 0, workflowId := "wf", executionId := "e1" }

/-- Witness for C6 at a registry whose only entry `i1` is dead. -/
theorem c6_witness :
    ∃ insts2,
      resolveV2 [("i1", deadRecV2)] 0 0 "wf" "e2" false (some "i1") =
        ResolveV2Out.failed (notFoundMsg "i1") insts2 ∧
      (∀ q ∈ insts2, q ∈ [("i1", deadRecV2)]) ∧
      insts2.length ≤ [("i1", deadRecV2)].length :=
  c6_explicit_id_resolution_error [("i1", deadRecV2)] 0 0 "wf" "e2" false "i1"
    (by decide)

/-! ## Claim C8 -/

/-- Claim C8: when the named-context lookup has at least one live
match (exact, or the name followed by a dash), it returns a match of
maximal creation timestamp — the most recently created candidate,
candidates being ordered by timestamp descending. -/
theorem c8_named_context_latest (r : BrowserRecord) (name : String)
    (h : matchingContexts r name ≠ []) :
    ∃ m ∈ matchingContexts r name,
      getContextByName r name = some m.context ∧
      ∀ m2 ∈ matchingContexts r name, m2.timestamp ≤ m.timestamp := by
  have hc : r.contexts.isEmpty = false := by
    cases hx : r.contexts.isEmpty with
    | false => rfl
    | true =>
      exfalso
      apply h
      have hnil : r.contexts = [] := by
        cases hy : r.contexts with
        | nil => rfl
        | cons a l => rw [hy] at hx; simp at hx
      simp [matchingContexts, hnil]
  have hperm := List.perm_insertionSort tsGe (matchingContexts r name)
  cases hs : (matchingContexts r name).insertionSort tsGe with
  | nil =>
    exfalso
    have hlen := hperm.length_eq
    rw [hs] at hlen
    simp only [List.length_nil] at hlen
    exact h (List.length_eq_zero.mp hlen.symm)
  | cons m t =>
    have hmem : m ∈ matchingContexts r name := by
      refine hperm.mem_iff.mp ?_
      rw [hs]
      exact List.mem_cons_self m t
    have hsorted := List.sorted_insertionSort tsGe (matchingContexts r name)
    rw [hs] at hsorted
    have hhead := (List.sorted_cons.mp hsorted).1
    refine ⟨m, hmem, ?_, ?_⟩
    · have hmsne : (matchingContexts r name).isEmpty = false := by
        cases hy : matchingContexts r name with
        | nil => exact absurd hy h
        | cons a l => rfl
      unfold getContextByName
      rw [hc]
      simp only [Bool.false_eq_true, if_false, hmsne, hs, List.head?_cons]
      rfl
    · intro m2 hm2
      have hm2s : m2 ∈ m :: t := by
        rw [← hs]
        exact hperm.mem_iff.mpr hm2
      rcases List.mem_cons.mp hm2s with he | ht
      · rw [he]
      · exact hhead m2 ht

/-! ## keepContext=false success-path teardown (shared by C3 and C10) -/

theorem execute_keepNothing_exact (st : ServerState) (meta : ExecMeta)
    (frag : Fragment) (wf eid iid : String) (r : BrowserRecord)
    (hwf : meta.workflowId = some wf) (heid : meta.executionId = some eid)
    (hkc : meta.keepContext = false) (hkp : meta.keepPage = false)
    (hfind : scanExact wf eid st.instances = some (iid, r))
    (hfrag : ∀ b, b.connected = true →
      ∃ b2 v, frag b = FragOutcome.ok b2 v ∧ b2.connected = true) :
    (∃ p, (execute st meta frag).res = ExecResult.ok p) ∧
    (execute st meta frag).resolvedId = some iid ∧
    (∃ r2, (execute st meta frag).finalRecord = some r2 ∧
      r2.browser.connected = false) ∧
    (execute st meta frag).state.instances = eraseInst st.instances iid := by
  have hecw : ((parseMeta st meta).1).workflowId = wf := by
    rw [parseMeta_workflowId, hwf]; rfl
  have hece : ((parseMeta st meta).1).executionId = eid :=
    parseMeta_executionId st meta eid heid
  have heckc : ((parseMeta st meta).1).keepContext = false := by
    rw [parseMeta_keepContext, hkc, hkp]; rfl
  have hro : resolveInstance st.instances (parseMeta st meta).2 st.now
      (parseMeta st meta).1 =
      { insts := st.instances, ctr := (parseMeta st meta).2, activeId := some iid
        record := r, createdNew := false, reusedPersistent := false
        shouldClose := false } := by
    unfold resolveInstance
    rw [hecw, hece, hfind]
  have hconn : r.browser.connected = true :=
    (mem_of_scanExact wf eid st.instances iid r hfind).2.2.2
  obtain ⟨b2, v, hfv, hb2⟩ := hfrag (revalidatePrimary r).browser
    (by rw [revalidatePrimary_browser]; exact hconn)
  have hex : execute st meta frag =
      executePost st (parseMeta st meta).1
        { insts := st.instances, ctr := (parseMeta st meta).2, activeId := some iid
          record := r, createdNew := false, reusedPersistent := false
          shouldClose := false }
        (revalidatePrimary r) (FragOutcome.ok b2 v) := by
    rw [execute_unfold st meta frag, hro]
    exact congrArg _ hfv
  have hrt := applyRetention_keepNothing (parseMeta st meta).1
    { revalidatePrimary r with browser := b2 } (some iid) heckc hb2
  rw [hex, executePost_ok_res, executePost_ok_resolvedId,
      executePost_ok_finalRecord, executePost_ok_instances]
  refine ⟨⟨_, rfl⟩, rfl, ⟨_, rfl, ?_⟩, ?_⟩
  · rw [fallbackClose_disconnected _ _ _ hrt.1]
    exact hrt.1
  · rw [hrt.2.2]
    rfl

theorem execute_keepNothing_noMatch (st : ServerState) (meta : ExecMeta)
    (frag : Fragment) (wf eid : String)
    (hwf : meta.workflowId = some wf) (heid : meta.executionId = some eid)
    (hkc : meta.keepContext = false) (hkp : meta.keepPage = false)
    (hfind : scanExact wf eid st.instances = none)
    (hfrag : ∀ b, b.connected = true →
      ∃ b2 v, frag b = FragOutcome.ok b2 v ∧ b2.connected = true) :
    (∃ p, (execute st meta frag).res = ExecResult.ok p) ∧
    (execute st meta frag).resolvedId = none ∧
    (∃ r2, (execute st meta frag).finalRecord = some r2 ∧
      r2.browser.connected = false) ∧
    (execute st meta frag).state.instances = st.instances := by
  have hecw : ((parseMeta st meta).1).workflowId = wf := by
    rw [parseMeta_workflowId, hwf]; rfl
  have hece : ((parseMeta st meta).1).executionId = eid :=
    parseMeta_executionId st meta eid heid
  have heckc : ((parseMeta st meta).1).keepContext = false := by
    rw [parseMeta_keepContext, hkc, hkp]; rfl
  have hro : resolveInstance st.instances (parseMeta st meta).2 st.now
      (parseMeta st meta).1 =
      { insts := st.instances, ctr := (parseMeta st meta).2, activeId := none
        record := newRecord st.now (parseMeta st meta).1, createdNew := true
        reusedPersistent := false, shouldClose := true } := by
    unfold resolveInstance
    rw [hecw, hece, hfind, heckc]
    rfl
  obtain ⟨b2, v, hfv, hb2⟩ :=
    hfrag (revalidatePrimary (newRecord st.now (parseMeta st meta).1)).browser
      (by rw [revalidatePrimary_browser]; rfl)
  have hex : execute st meta frag =
      executePost st (parseMeta st meta).1
        { insts := st.instances, ctr := (parseMeta st meta).2, activeId := none
          record := newRecord st.now (parseMeta st meta).1, createdNew := true
          reusedPersistent := false, shouldClose := true }
        (revalidatePrimary (newRecord st.now (parseMeta st meta).1))
        (FragOutcome.ok b2 v) := by
    rw [execute_unfold st meta frag, hro]
    exact congrArg _ hfv
  have hrt := applyRetention_keepNothing (parseMeta st meta).1
    { revalidatePrimary (newRecord st.now (parseMeta st meta).1) with browser := b2 }
    none heckc hb2
  rw [hex, executePost_ok_res, executePost_ok_resolvedId,
      executePost_ok_finalRecord, executePost_ok_instances]
  refine ⟨⟨_, rfl⟩, rfl, ⟨_, rfl, ?_⟩, ?_⟩
  · rw [fallbackClose_disconnected _ _ _ hrt.1]
    exact hrt.1
  · rw [hrt.2.2]
    rfl

/-! ## Claim C3 (amended) -/

/-- Claim C3 amended: for every `wantsRetentionOfContext=false` call
whose fragment completes normally and leaves the controller connected
(and whose pre-state holds at most one live exact match, as reachable
states do), after the call returns no registry entry with a live
controller matches the call's `(scopeId, jobId)`, and the controller
the call used has been closed. -/
theorem c3_amended_keepNothing_teardown (st : ServerState) (meta : ExecMeta)
    (frag : Fragment) (wf eid : String)
    (hwf : meta.workflowId = some wf) (heid : meta.executionId = some eid)
    (hkc : meta.keepContext = false) (hkp : meta.keepPage = false)
    (hfrag : ∀ b, b.connected = true →
      ∃ b2 v, frag b = FragOutcome.ok b2 v ∧ b2.connected = true)
    (huniq : (st.instances.filter (fun q => q.2.workflowId == wf &&
        q.2.executionId == eid && q.2.browser.connected)).length ≤ 1) :
    (∃ p, (execute st meta frag).res = ExecResult.ok p) ∧
    (∃ r2, (execute st meta frag).finalRecord = some r2 ∧
      r2.browser.connected = false) ∧
    (∀ q ∈ (execute st meta frag).state.instances,
      (q.2.workflowId == wf && q.2.executionId == eid &&
        q.2.browser.connected) = false) := by
  cases hE : scanExact wf eid st.instances with
  | some pr =>
    obtain ⟨iid, r⟩ := pr
    obtain ⟨hok, hres, hfin, hinst⟩ :=
      execute_keepNothing_exact st meta frag wf eid iid r hwf heid hkc hkp hE hfrag
    refine ⟨hok, hfin, ?_⟩
    intro q hq
    rw [hinst] at hq
    obtain ⟨hqmem, hqne⟩ := (mem_eraseInst st.instances iid q).mp hq
    cases hqp : (q.2.workflowId == wf && q.2.executionId == eid &&
        q.2.browser.connected) with
    | false => rfl
    | true =>
      exfalso
      have hmemr := (mem_of_scanExact wf eid st.instances iid r hE).1
      have hpredr : ((iid, r).2.workflowId == wf && (iid, r).2.executionId == eid &&
          (iid, r).2.browser.connected) = true := by
        have h3 := mem_of_scanExact wf eid st.instances iid r hE
        simp [h3.2.1, h3.2.2.1, h3.2.2.2]
      have hqf : q ∈ st.instances.filter (fun q => q.2.workflowId == wf &&
          q.2.executionId == eid && q.2.browser.connected) :=
        List.mem_filter.mpr ⟨hqmem, hqp⟩
      have hrf : (iid, r) ∈ st.instances.filter (fun q => q.2.workflowId == wf &&
          q.2.executionId == eid && q.2.browser.connected) :=
        List.mem_filter.mpr ⟨hmemr, hpredr⟩
      have := length_le_one_elems_eq _ huniq q hqf (iid, r) hrf
      rw [this] at hqne
      simp at hqne
  | none =>
    obtain ⟨hok, hres, hfin, hinst⟩ :=
      execute_keepNothing_noMatch st meta frag wf eid hwf heid hkc hkp hE hfrag
    refine ⟨hok, hfin, ?_⟩
    intro q hq
    rw [hinst] at hq
    exact scanExact_none wf eid st.instances hE q hq

/-- Witness for the amended C3: a registry holding one live persistent
session for `(wf, e1)` and a retention-free call with a benign
fragment. -/
theorem c3_amended_witness :
    (∃ p, (execute stWithPersistent metaWf1NoKeep fragOkEmpty).res =
      ExecResult.ok p) ∧
    (∃ r2, (execute stWithPersistent metaWf1NoKeep fragOkEmpty).finalRecord =
      some r2 ∧ r2.browser.connected = false) ∧
    (∀ q ∈ (execute stWithPersistent metaWf1NoKeep fragOkEmpty).state.instances,
      (q.2.workflowId == "wf" && q.2.executionId == "e1" &&
        q.2.browser.connected) = false) :=
  c3_amended_keepNothing_teardown stWithPersistent metaWf1NoKeep fragOkEmpty
    "wf" "e1" rfl rfl rfl rfl
    (fun b hb => ⟨b, FragVal.obj emptyObj, rfl, hb⟩) (by decide)

/-! ## Claim C10 -/

/-- Claim C10: the exact-match scan ignores the caller's retention
flags — a keepContext=false call whose `(scopeId, jobId)` exactly
matches a registered persistent session with a live controller
resolves to that session, and the keepNothing teardown afterwards
closes its controller and evicts its registry entry. -/
theorem c10_exact_match_ignores_retention (st : ServerState) (meta : ExecMeta)
    (frag : Fragment) (wf eid iid : String) (r : BrowserRecord)
    (hwf : meta.workflowId = some wf) (heid : meta.executionId = some eid)
    (hkc : meta.keepContext = false) (hkp : meta.keepPage = false)
    (hfind : scanExact wf eid st.instances = some (iid, r))
    (hpers : r.persistentContext = true)
    (hfrag : ∀ b, b.connected = true →
      ∃ b2 v, frag b = FragOutcome.ok b2 v ∧ b2.connected = true) :
    (execute st meta frag).resolvedId = some iid ∧
    lookupInst (execute st meta frag).state.instances iid = none ∧
    (∃ r2, (execute st meta frag).finalRecord = some r2 ∧
      r2.browser.connected = false) ∧
    (∃ p, (execute st meta frag).res = ExecResult.ok p) := by
  obtain ⟨hok, hres, hfin, hinst⟩ :=
    execute_keepNothing_exact st meta frag wf eid iid r hwf heid hkc hkp hfind hfrag
  refine ⟨hres, ?_, hfin, hok⟩
  rw [hinst]
  exact lookupInst_eraseInst iid st.instances

/-- Witness for C10: the registered live persistent session `i1` for
`(wf, e1)`, destroyed by a retention-free call with the same
identity. -/
theorem c10_witness :
    (execute stWithPersistent metaWf1NoKeep fragOkEmpty).resolvedId = some "i1" ∧
    lookupInst (execute stWithPersistent metaWf1NoKeep fragOkEmpty).state.instances
      "i1" = none ∧
    (∃ r2, (execute stWithPersistent metaWf1NoKeep fragOkEmpty).finalRecord =
      some r2 ∧ r2.browser.connected = false) ∧
    (∃ p, (execute stWithPersistent metaWf1NoKeep fragOkEmpty).res =
      ExecResult.ok p) :=
  c10_exact_match_ignores_retention stWithPersistent metaWf1NoKeep fragOkEmpty
    "wf" "e1" "i1" persistentRec rfl rfl rfl rfl (by decide) rfl
    (fun b hb => ⟨b, FragVal.obj emptyObj, rfl, hb⟩)

/-! ## Claim C5 -/

theorem ensureOutputKey_pid (o : ResObj) :
    (ensureOutputKey o).playwrightInstanceId = o.playwrightInstanceId := by
  unfold ensureOutputKey
  split <;> rfl

theorem addScreenshotsToObj_pid (o : ResObj) (shots : List Screenshot) :
    (addScreenshotsToObj o shots).playwrightInstanceId = o.playwrightInstanceId := by
  rw [← ensureOutputKey_pid o]
  unfold addScreenshotsToObj
  rcases h : (ensureOutputKey o).A with _ | items <;> simp [h]

theorem wrap_hook_pid (ec : ExecutionContext) (b : Browser) (v : FragVal) :
    (wrapPayload (autoScreenshotHook ec b v)).playwrightInstanceId =
      (wrapPayload v).playwrightInstanceId := by
  unfold autoScreenshotHook
  split
  · by_cases hs : (collectScreenshots b).isEmpty = true
    · simp [hs]
    · cases v with
      | obj o => simp [hs, wrapPayload, addScreenshotsToObj_pid]
      | nonObj t => simp [hs, wrapPayload, addScreenshotsToObj_pid, emptyObj]
  · rfl

theorem resolveInstance_activeId_of_keep (insts : Registry) (ctr now : Nat)
    (ec : ExecutionContext) (h : ec.keepContext = true) :
    ∃ iid, (resolveInstance insts ctr now ec).activeId = some iid := by
  unfold resolveInstance
  cases hE : scanExact ec.workflowId ec.executionId insts with
  | some pr =>
    obtain ⟨iid, r⟩ := pr
    exact ⟨iid, rfl⟩
  | none =>
    rw [h]
    cases hP : scanPersistent ec.workflowId insts with
    | some pr =>
      obtain ⟨iid, r⟩ := pr
      exact ⟨iid, rfl⟩
    | none => exact ⟨uuidGen ctr, rfl⟩

/-- A fragment that does not itself write the reserved
`__playwrightInstanceId` field into its returned object. -/
def NoForge (frag : Fragment) : Prop :=
  ∀ b, match frag b with
    | FragOutcome.ok _ (FragVal.obj o) => o.playwrightInstanceId = none
    | _ => True

/-- Claim C5: a session id is generated and the session registered at
creation time exactly when retention of context was requested
(ephemeral sessions get no id and no registry entry), and — for
fragments that do not forge the reserved field themselves — the
reserved `__playwrightInstanceId` field is present in the returned
payload exactly when retention of context was requested. -/
theorem c5_session_id_iff_retention (st : ServerState) (meta : ExecMeta)
    (frag : Fragment) (hnf : NoForge frag) :
    (∀ (insts : Registry) (ctr now : Nat) (ec : ExecutionContext),
       (resolveInstance insts ctr now ec).createdNew = true →
       (if ec.keepContext then
          (resolveInstance insts ctr now ec).activeId = some (uuidGen ctr) ∧
          lookupInst (resolveInstance insts ctr now ec).insts (uuidGen ctr) =
            some (resolveInstance insts ctr now ec).record
        else
          (resolveInstance insts ctr now ec).activeId = none ∧
          (resolveInstance insts ctr now ec).insts = insts)) ∧
    (∀ p, (execute st meta frag).res = ExecResult.ok p →
       p.playwrightInstanceId.isSome = (meta.keepContext || meta.keepPage)) := by
  constructor
  · intro insts ctr now ec hnew
    cases hE : scanExact ec.workflowId ec.executionId insts with
    | some pr =>
      obtain ⟨iid, r⟩ := pr
      exfalso
      unfold resolveInstance at hnew
      rw [hE] at hnew
      exact absurd hnew (by simp)
    | none =>
      cases hkc : ec.keepContext with
      | true =>
        cases hP : scanPersistent ec.workflowId insts with
        | some pr =>
          obtain ⟨iid, r⟩ := pr
          exfalso
          unfold resolveInstance at hnew
          rw [hE, hkc, hP] at hnew
          exact absurd hnew (by simp)
        | none =>
          rw [if_pos rfl]
          unfold resolveInstance
          rw [hE, hkc, hP]
          exact ⟨rfl, lookupInst_setInst insts (uuidGen ctr) (newRecord now ec)⟩
      | false =>
        rw [if_neg (by simp)]
        unfold resolveInstance
        rw [hE, hkc]
        exact ⟨rfl, rfl⟩
  · intro p hp
    rw [← parseMeta_keepContext st meta]
    cases hfv : frag (revalidatePrimary (resolveInstance st.instances
        (parseMeta st meta).2 st.now (parseMeta st meta).1).record).browser with
    | err b2 m =>
      rw [execute_unfold st meta frag, hfv, executePost_err_res] at hp
      exact absurd hp (by simp)
    | ok b2 v =>
      rw [execute_unfold st meta frag, hfv, executePost_ok_res] at hp
      have hpeq : attachInstanceId (parseMeta st meta).1
          (applyRetention (parseMeta st meta).1
            { revalidatePrimary (resolveInstance st.instances (parseMeta st meta).2
                st.now (parseMeta st meta).1).record with browser := b2 }
            (resolveInstance st.instances (parseMeta st meta).2 st.now
              (parseMeta st meta).1).activeId).activeId
          (wrapPayload (autoScreenshotHook (parseMeta st meta).1 b2 v)) = p := by
        injection hp
      rw [← hpeq]
      cases hkc : ((parseMeta st meta).1).keepContext with
      | true =>
        obtain ⟨iid, hiid⟩ := resolveInstance_activeId_of_keep st.instances
          (parseMeta st meta).2 st.now (parseMeta st meta).1 hkc
        have hkeep := applyRetention_keep (parseMeta st meta).1
          { revalidatePrimary (resolveInstance st.instances (parseMeta st meta).2
              st.now (parseMeta st meta).1).record with browser := b2 }
          ((resolveInstance st.instances (parseMeta st meta).2 st.now
            (parseMeta st meta).1).activeId) hkc
        unfold attachInstanceId
        rw [hkc, hkeep.1, hiid]
        rfl
      | false =>
        unfold attachInstanceId
        rw [hkc]
        have hv := hnf (revalidatePrimary (resolveInstance st.instances
          (parseMeta st meta).2 st.now (parseMeta st meta).1).record).browser
        rw [hfv] at hv
        cases v with
        | obj o =>
          have ho : o.playwrightInstanceId = none := hv
          simp only [Bool.false_eq_true, if_false]
          rw [wrap_hook_pid]
          simp [wrapPayload, ho]
        | nonObj t =>
          simp only [Bool.false_eq_true, if_false]
          rw [wrap_hook_pid]
          simp [wrapPayload]

/-- The `executionContext` of a retention-requesting call in workflow
`wf`, execution `e1`. -/
def ecKeepWitness : ExecutionContext :=
  { workflowId := "wf", workflowName := "", executionId := "e1", nodeId := ""
    nodeName := "", keepContext := true, keepPage := false
    autoScreenshot := false, contextId := none }

/-- Witness for C5: a creation with retention gets id `uuid-0` and a
registry entry; the returned payload of that call carries the reserved
field, while a retention-free call returns none. -/
theorem c5_witness :
    ((if (ecKeepWitness).keepContext then
        (resolveInstance [] 0 0 ecKeepWitness).activeId = some (uuidGen 0) ∧
        lookupInst (resolveInstance [] 0 0 ecKeepWitness).insts (uuidGen 0) =
          some (resolveInstance [] 0 0 ecKeepWitness).record
      else
        (resolveInstance [] 0 0 ecKeepWitness).activeId = none ∧
        (resolveInstance [] 0 0 ecKeepWitness).insts = [])) ∧
    ({ emptyObj with playwrightInstanceId := some "uuid-0"
        : ResObj }).playwrightInstanceId.isSome =
      (metaWf1Keep.keepContext || metaWf1Keep.keepPage) :=
  ⟨(c5_session_id_iff_retention emptyState metaWf1Keep fragOkEmpty
      (fun b => rfl)).1 [] 0 0 ecKeepWitness rfl,
   (c5_session_id_iff_retention emptyState metaWf1Keep fragOkEmpty
      (fun b => rfl)).2
      { emptyObj with playwrightInstanceId := some "uuid-0" } rfl⟩

/-! ## Claim C7 -/

/-- Total number of open pages over every open context of the
browser. -/
def openPageCount (b : Browser) : Nat :=
  (b.openIds.map (fun cid =>
    match b.findCtx cid with
    | some c => c.pages.length
    | none => 0)).sum

/-- A connected browser with one open context holding exactly one
page. -/
def onePageBrowser (cid : Nat) (pg : Page) : Browser :=
  { connected := true, heap := [(cid, Ctx.mk [pg])], openIds := [cid] }

/-- A connected browser with one open context holding exactly two
pages. -/
def twoPageBrowser (cid : Nat) (pg1 pg2 : Page) : Browser :=
  { connected := true, heap := [(cid, Ctx.mk [pg1, pg2])], openIds := [cid] }

theorem shotsOfCtxs_nil (b : Browser) :
    ∀ (ci : Nat) (l : List Nat),
      (∀ cid ∈ l, (match b.findCtx cid with
                   | some c => c.pages.length
                   | none => 0) = 0) →
      shotsOfCtxs b ci l = []
  | _, [], _ => rfl
  | ci, cid :: rest, h => by
    have hrest := shotsOfCtxs_nil b (ci + 1) rest
      (fun c hc => h c (List.mem_cons_of_mem _ hc))
    have hhead := h cid (List.mem_cons_self cid rest)
    rw [shotsOfCtxs]
    cases hfc : b.findCtx cid with
    | none => simpa using hrest
    | some c =>
      rw [hfc] at hhead
      have hpg : c.pages = [] := List.length_eq_zero.mp (by simpa using hhead)
      show shotsOfPages ci 0 c.pages ++ shotsOfCtxs b (ci + 1) rest = []
      rw [hpg, hrest]
      rfl

theorem collectScreenshots_of_count_zero (b : Browser)
    (h : openPageCount b = 0) : collectScreenshots b = [] := by
  unfold collectScreenshots
  apply shotsOfCtxs_nil
  intro cid hcid
  unfold openPageCount at h
  exact List.sum_eq_zero_iff.mp h _ (List.mem_map_of_mem _ hcid)

/-- Claim C7: with capture requested and a live controller, zero open
pages leave the result untouched; one open page adds exactly one
attachment under the fixed single-snapshot key (plus the source URL on
the json side); two open pages add exactly two attachments under the
indexed keys (plus count and URL list); and a fragment that completes
normally always yields a successful response — nothing in the capture
hook fails the call, failed page snapshots are simply skipped. -/
theorem c7_auto_capture (ec : ExecutionContext) (hauto : ec.autoScreenshot = true)
    (b0 : Browser) (hb0 : b0.connected = true) (hp0 : openPageCount b0 = 0)
    (v : FragVal) (cid : Nat) (pg pg1 pg2 : Page)
    (hok : pg.shotOk = true) (hok1 : pg1.shotOk = true) (hok2 : pg2.shotOk = true)
    (o : ResObj) (rest : List OutputItem)
    (hA : o.A = some ({ json := some [], binary := some [] } :: rest))
    (st : ServerState) (meta : ExecMeta) (frag : Fragment)
    (hfragOk : ∀ b, ∃ b2 v2, frag b = FragOutcome.ok b2 v2) :
    autoScreenshotHook ec b0 v = v ∧
    autoScreenshotHook ec (onePageBrowser cid pg) (FragVal.obj o) =
      FragVal.obj { o with A := some ({
        json := some [("screenshotUrl", JLit.str pg.url)],
        binary := some [("screenshot",
          { data := pg.shotData, mimeType := "image/png",
            fileExtension := "png", fileName := "screenshot.png" })] } :: rest) } ∧
    autoScreenshotHook ec (twoPageBrowser cid pg1 pg2) (FragVal.obj o) =
      FragVal.obj { o with A := some ({
        json := some [("screenshotCount", JLit.num 2),
          ("screenshotUrls", JLit.strs [pg1.url, pg2.url])],
        binary := some [("screenshot_0",
          { data := pg1.shotData, mimeType := "image/png",
            fileExtension := "png", fileName := "screenshot_0.png" }),
          ("screenshot_1",
          { data := pg2.shotData, mimeType := "image/png",
            fileExtension := "png", fileName := "screenshot_1.png" })] } :: rest) } ∧
    (∃ p, (execute st meta frag).res = ExecResult.ok p) := by
  refine ⟨?_, ?_, ?_, ?_⟩
  · unfold autoScreenshotHook
    rw [hauto, hb0, collectScreenshots_of_count_zero b0 hp0]
    rfl
  · have hshots : collectScreenshots (onePageBrowser cid pg) =
        [{ contextIndex := 0, pageIndex := 0, url := pg.url, dataB64 := pg.shotData }] := by
      unfold collectScreenshots onePageBrowser shotsOfCtxs Browser.findCtx
      simp [shotsOfPages, hok, shotsOfCtxs]
    unfold autoScreenshotHook
    rw [hauto, hshots]
    simp only [onePageBrowser, Bool.and_self, if_true, List.isEmpty_cons,
      Bool.false_eq_true, if_false]
    unfold addScreenshotsToObj ensureOutputKey
    simp only [hA, Option.isNone_some, Bool.and_false, Bool.false_eq_true, if_false]
    simp [mergeShotsList, mergeShotsIntoItem, setKey, singleShotAttachment]
  · have hshots : collectScreenshots (twoPageBrowser cid pg1 pg2) =
        [{ contextIndex := 0, pageIndex := 0, url := pg1.url, dataB64 := pg1.shotData },
         { contextIndex := 0, pageIndex := 1, url := pg2.url, dataB64 := pg2.shotData }] := by
      unfold collectScreenshots twoPageBrowser shotsOfCtxs Browser.findCtx
      simp [shotsOfPages, hok1, hok2, shotsOfCtxs]
    unfold autoScreenshotHook
    rw [hauto, hshots]
    simp only [twoPageBrowser, Bool.and_self, if_true, List.isEmpty_cons,
      Bool.false_eq_true, if_false]
    unfold addScreenshotsToObj ensureOutputKey
    simp only [hA, Option.isNone_some, Bool.and_false, Bool.false_eq_true, if_false]
    have hk01 : (("screenshot_0" : String) == "screenshot_1") = false := by decide
    simp only [mergeShotsList, mergeShotsIntoItem, addIndexedShots, setKey,
      indexedShotAttachment, hk01]
    have hs0 : ("screenshot_" ++ toString 0) = "screenshot_0" := rfl
    have hs1 : ("screenshot_" ++ toString 1) = "screenshot_1" := rfl
    have hf0 : (("screenshot_0" : String) ++ ".png") = "screenshot_0.png" := rfl
    have hf1 : (("screenshot_1" : String) ++ ".png") = "screenshot_1.png" := rfl
    simp [hs0, hs1, hf0, hf1, hk01]
  · obtain ⟨b2, v2, hfv⟩ := hfragOk (revalidatePrimary (resolveInstance st.instances
      (parseMeta st meta).2 st.now (parseMeta st meta).1).record).browser
    rw [execute_unfold st meta frag, hfv]
    exact ⟨_, rfl⟩

/-- Connected browser with one open, empty context. -/
def noPagesBrowser : Browser :=
  { connected := true, heap := [(7, Ctx.mk [])], openIds := [7] }

/-- The `executionContext` of a capture-requesting call. -/
def ecShotWitness : ExecutionContext :=
  { workflowId := "wf", workflowName := "", executionId := "e1", nodeId := ""
    nodeName := "", keepContext := false, keepPage := false
    autoScreenshot := true, contextId := none }

/-- A page whose snapshot succeeds. -/
def pgWitness : Page := { url := "http://a", shotOk := true, shotData := "IMG" }

/-- The result object the C7 witness starts from: one empty item on
channel `A`. -/
def c7StartObj : ResObj :=
  { A := some [{ json := some [], binary := some [] }]
    output1 := none, rawResult := none, playwrightInstanceId := none }

/-- The result the hook is expected to produce in the C7 witness. -/
def c7Expected : FragVal :=
  FragVal.obj
    { A := some [{ json := some [("screenshotUrl", JLit.str pgWitness.url)]
                   binary := some [("screenshot",
                     { data := pgWitness.shotData, mimeType := "image/png"
                       fileExtension := "png", fileName := "screenshot.png" })] }]
      output1 := none, rawResult := none, playwrightInstanceId := none }

/-- Witness for C7 at concrete inputs: a no-page browser, a one-page
browser, and a benign fragment. -/
theorem c7_witness :
    autoScreenshotHook ecShotWitness noPagesBrowser (FragVal.nonObj "n") =
      FragVal.nonObj "n" ∧
    autoScreenshotHook ecShotWitness (onePageBrowser 3 pgWitness)
      (FragVal.obj c7StartObj) = c7Expected ∧
    (∃ p, (execute emptyState metaDefault fragOkEmpty).res = ExecResult.ok p) := by
  have h := c7_auto_capture ecShotWitness rfl noPagesBrowser rfl rfl
    (FragVal.nonObj "n") 3 pgWitness pgWitness pgWitness rfl rfl rfl
    c7StartObj [] rfl emptyState metaDefault fragOkEmpty
    (fun b => ⟨b, FragVal.obj emptyObj, rfl⟩)
  exact ⟨h.1, h.2.1, h.2.2.2⟩

/-- A record with two live named contexts matching `user`, the later
one carrying timestamp 200. -/
def namedCtxRec : BrowserRecord :=
  { persistentRec with
      browser := { connected := true, heap := [(1, ⟨[]⟩), (2, ⟨[]⟩)], openIds := [1, 2] }
      contexts := [("user-100", 1), ("user-200", 2)] }

/-- Witness for C8: looking up `user` among `user-100` and `user-200`
yields a maximal-timestamp match. -/
theorem c8_witness :
    ∃ m ∈ matchingContexts namedCtxRec "user",
      getContextByName namedCtxRec "user" = some m.context ∧
      ∀ m2 ∈ matchingContexts namedCtxRec "user", m2.timestamp ≤ m.timestamp :=
  c8_named_context_latest namedCtxRec "user" (by decide)

end RemoteExec
